import Mathlib

/-!
Verification development for the matplotcheck assertion layer.

The repository ships the callers of the assertion API (the pytest suite
`matplotcheck/tests/test_base_data.py` and the vignette
`examples/plot_vector_testing.py`) together with the packaging descriptor;
the bodies of `PlotTester.assert_xydata` and the `VectorTester` assertions
are not part of the shipped sources.  The definitions below therefore model
those operations from the specification, faithful to its wording, while the
shipped callers fix interface facts (in particular the keyword spelling
`tolerence` used by the test suite).

Numeric chart data is embedded as rational numbers; comparisons of the form
`|actual - expected| <= tolerance` are exact over `Rat`.
-/

namespace Matplotcheck

/-- Modelled from the spec: a cell of the expected table's x column.  The
spec's `assert_xydata` accepts both numeric x values (compared within a
tolerance) and categorical/string x values (compared as strings when
`xlabels=True`). -/
inductive CellValue where
  | num (q : Rat)
  | str (s : String)
deriving DecidableEq, Repr

/-- Modelled from the spec: the caller-supplied expected table restricted to
the two columns `assert_xydata` reads, `expected_table[xcol]` and
`expected_table[ycol]`. -/
structure ExpectedTable where
  xcol : List CellValue
  ycol : List Rat
deriving DecidableEq, Repr

/-- Modelled from the spec: the read-only view over a rendered chart that the
assertions extract — x/y values of the plotted artifacts in native draw
order, the x tick labels, rendered marker coordinates and marker sizes, and
line artifacts batched by color. -/
structure Axes where
  xvals : List Rat
  yvals : List Rat
  xticklabels : List String
  markers : List (Rat × Rat)
  markersizes : List Rat
  lineBatches : List (String × List (List (Rat × Rat)))
deriving DecidableEq, Repr

/-- Modelled from the spec: the descriptive failure signalled by
`assert_xydata` — either a shape mismatch (artifact count differs from the
expected table length) or a value mismatch locating the offending row and
column. -/
inductive XYFailure where
  | lengthMismatch (expectedLen actualLen : Nat)
  | valueMismatch (row : Nat) (col : String)
deriving DecidableEq, Repr

/-- Modelled from the spec: the human-readable description carried by a
failure; every `assert_xydata` failure reports an "Incorrect data values"
condition (the string the test suite matches on) locating the divergence. -/
def XYFailure.message : XYFailure → String
  | XYFailure.lengthMismatch e a =>
      "Incorrect data values: expected " ++ toString e ++
        " elements, found " ++ toString a
  | XYFailure.valueMismatch r c =>
      "Incorrect data values: mismatch at row " ++ toString r ++
        " in column " ++ c

/-- Index of the first element of a list satisfying `bad`, if any. -/
def findBadIdx {α : Type} (bad : α → Bool) : List α → Option Nat
  | [] => none
  | x :: xs => if bad x then some 0 else (findBadIdx bad xs).map (· + 1)

/-- Rendering of a rational number as a tick-label string (integers print
without a denominator, matching how numeric category labels appear). -/
def ratLabel (q : Rat) : String :=
  if q.den = 1 then toString q.num
  else toString q.num ++ "/" ++ toString q.den

/-- Modelled from the spec: the string form of an expected x cell used when
`xlabels=True` — categorical cells compare verbatim, numeric cells compare
through their string rendering (handles numeric-valued category axes). -/
def cellLabel : CellValue → String
  | CellValue.num q => ratLabel q
  | CellValue.str s => s

/-- Modelled from the spec: element-wise numeric comparison of an expected
series against a rendered series — strictly positional, passing when
`|actual - expected| <= tolerence` at every index, and otherwise failing at
the first offending index; a length difference is a shape mismatch. -/
def checkNumericSeries (tolerence : Rat) (col : String)
    (expected actual : List Rat) : Option XYFailure :=
  if expected.length ≠ actual.length then
    some (XYFailure.lengthMismatch expected.length actual.length)
  else
    (findBadIdx (fun p => decide (tolerence < |p.1 - p.2|))
        (expected.zip actual)).map (fun i => XYFailure.valueMismatch i col)

/-- Modelled from the spec: positional comparison of the expected x column,
as strings, against the rendered tick labels (the `xlabels=True` path); any
label that is not identical fails, including a numeric expected label
meeting a non-numeric actual label. -/
def checkLabelSeries (col : String) (expected : List CellValue)
    (actual : List String) : Option XYFailure :=
  if expected.length ≠ actual.length then
    some (XYFailure.lengthMismatch expected.length actual.length)
  else
    (findBadIdx (fun p => decide (p.1 ≠ p.2))
        ((expected.map cellLabel).zip actual)).map
      (fun i => XYFailure.valueMismatch i col)

/-- Modelled from the spec: positional numeric comparison of the expected x
column against the rendered x values; a categorical cell met where a number
is expected counts as a value mismatch. -/
def checkXNumeric (tolerence : Rat) (expected : List CellValue)
    (actual : List Rat) : Option XYFailure :=
  if expected.length ≠ actual.length then
    some (XYFailure.lengthMismatch expected.length actual.length)
  else
    (findBadIdx (fun p =>
        match p.1 with
        | CellValue.num q => decide (tolerence < |q - p.2|)
        | CellValue.str _ => true) (expected.zip actual)).map
      (fun i => XYFailure.valueMismatch i "x")

/-- Modelled from the spec: `PlotTester.assert_xydata` (its body is not among
the shipped sources; the test suite only calls it).  With no expected table,
or an empty one, the assertion is a no-op pass.  Otherwise the x series is
compared either numerically against the rendered x values or, when
`xlabels=True`, as strings against the tick labels, and the y series is
compared numerically; the result is `none` on pass and carries the first
descriptive failure otherwise. -/
def assert_xydata (expectedTable : Option ExpectedTable) (ax : Axes)
    (tolerence : Rat) (xlabels : Bool) : Option XYFailure :=
  match expectedTable with
  | none => none
  | some tbl =>
    if tbl.xcol.isEmpty && tbl.ycol.isEmpty then none
    else
      let xres :=
        if xlabels then checkLabelSeries "x" tbl.xcol ax.xticklabels
        else checkXNumeric tolerence tbl.xcol ax.xvals
      match xres with
      | some f => some f
      | none => checkNumericSeries tolerence "y" tbl.ycol ax.yvals

/-- Modelled from the spec: the default tolerance used by `assert_xydata`
when the caller supplies none — a tolerance small against any plotted datum
(the spec calls it "near machine epsilon", and the shipped test
`test_assert_xydata_floatingpoint_error` requires perturbations of `1.0e-10`
to pass under it). -/
def defaultTolerence : Rat := 1 / 2 ^ 33

/-- Keyword parameter names accepted by `assert_xydata`, as fixed by the
shipped callers: the test suite passes the tolerance by the keyword
`tolerence` (`tolerence=0.5`, `tolerence=0.1`), so that is the accepted
spelling. -/
def xydataKeywords : List String :=
  ["expected_xydata", "xcol", "ycol", "points_only", "xlabels", "tolerence"]

/-- Whether `assert_xydata` accepts a keyword argument of the given name. -/
def acceptsKeyword (name : String) : Bool :=
  xydataKeywords.contains name

/-- Modelled from the spec and the shipped callers: the tolerance
`assert_xydata` effectively uses, given the keyword arguments of the call —
the value passed under the keyword `tolerence` when present, and the default
otherwise. -/
def effectiveTolerence (kwargs : List (String × Rat)) : Rat :=
  match kwargs.lookup "tolerence" with
  | some t => t
  | none => defaultTolerence

/-- Modelled from the spec: `VectorTester.assert_points` (body not among the
shipped sources).  It extracts the rendered marker coordinates and compares
the set of `(x, y)` pairs to the expected geometry's coordinates, as an
unordered comparison irrespective of draw order. -/
def assert_points (expectedPoints : List (Rat × Rat)) (ax : Axes) : Bool :=
  decide ((ax.markers : Multiset (Rat × Rat)) = (expectedPoints : Multiset (Rat × Rat)))

/-- Check over the positional pairs of expected size attribute and rendered
marker size: whenever one pair's attribute is strictly below another's, its
rendered size must be below or equal. -/
def sortedByMarkersize (attrs ms : List Rat) : Bool :=
  (attrs.zip ms).all fun p =>
    (attrs.zip ms).all fun q => decide (p.1 < q.1 → p.2 ≤ q.2)

/-- Modelled from the spec:
`VectorTester.assert_collection_sorted_by_markersize` (body not among the
shipped sources).  Given the expected numeric size attribute of each marker
paired positionally with the rendered marker sizes, it checks that rendered
size ordering is monotonically consistent with the attribute ordering: a
larger attribute value must come with a larger or equal rendered size.
Exact pixel sizes are not inspected, only this relative ordering. -/
def assert_collection_sorted_by_markersize (sizeAttrs : List Rat) (ax : Axes) : Bool :=
  sortedByMarkersize sizeAttrs ax.markersizes

/-- A rendered or expected line geometry: its vertex sequence. -/
abbrev Line := List (Rat × Rat)

/-- The distinct attribute values appearing in an expected geodata table,
each row of which carries a grouping attribute and a line geometry. -/
def attrValues (expected : List (String × Line)) : List String :=
  (expected.map Prod.fst).dedup

/-- The line geometries of the expected rows carrying a given attribute
value. -/
def groupLines (expected : List (String × Line)) (a : String) : List Line :=
  (expected.filter (fun r => decide (r.1 = a))).map Prod.snd

/-- Modelled from the spec: `VectorTester.assert_lines_grouped_by_type`
(body not among the shipped sources).  For every attribute value of the
expected geodata there must be a rendered line batch whose color is the one
the symbology mapping assigns to that attribute and whose lines are exactly
that group's geometries (unordered); a group drawn with the wrong color, or
merged into a batch with another group's lines, has no such batch. -/
def assert_lines_grouped_by_type (expected : List (String × Line))
    (symb : List (String × String)) (ax : Axes) : Bool :=
  (attrValues expected).all fun a =>
    ax.lineBatches.any fun b =>
      decide (symb.lookup a = some b.1) &&
        decide ((b.2 : Multiset Line) = (groupLines expected a : Multiset Line))

/-- Modelled from the spec: the ambient pyplot state the notebook capture
helper reads — the externally active "current" chart. -/
structure PyplotState where
  current : Axes

/-- Modelled from the spec: `notebook.convert_axes` (body not among the
shipped sources) — converts the currently active chart into a chart handle
that can be fed to a Tester later; a pure convenience wrapper with no logic
of its own.  With `which_axes="current"` it hands back the current Axes. -/
def convert_axes (plt : PyplotState) (whichAxes : String) : Option Axes :=
  if whichAxes = "current" then some plt.current else none

/-- A `VectorTester` wraps the Axes handle it was constructed from; every
assertion is a pure read of that handle. -/
structure VectorTester where
  ax : Axes

/-! ### Characterizations of the comparison helpers -/

theorem findBadIdx_eq_none_iff {α : Type} (bad : α → Bool) (l : List α) :
    findBadIdx bad l = none ↔ ∀ x ∈ l, bad x = false := by
  induction l with
  | nil => simp [findBadIdx]
  | cons x xs ih =>
    by_cases h : bad x
    · simp [findBadIdx, h]
    · have h' : bad x = false := by simpa using h
      simp [findBadIdx, h', Option.map_eq_none', ih]

theorem findBadIdx_map {α β : Type} (bad : β → Bool) (f : α → β) (l : List α) :
    findBadIdx bad (l.map f) = findBadIdx (fun a => bad (f a)) l := by
  induction l with
  | nil => rfl
  | cons x xs ih => simp [findBadIdx, ih]

theorem findBadIdx_eq_some_get {α : Type} (bad : α → Bool) (l : List α) (i : Nat)
    (h : findBadIdx bad l = some i) : ∃ x, l.get? i = some x ∧ bad x = true := by
  induction l generalizing i with
  | nil => simp [findBadIdx] at h
  | cons x xs ih =>
    by_cases hx : bad x
    · rw [findBadIdx, if_pos hx] at h
      obtain rfl : (0 : Nat) = i := Option.some.inj h
      exact ⟨x, rfl, hx⟩
    · rw [findBadIdx, if_neg hx, Option.map_eq_some'] at h
      obtain ⟨j, hj, hji⟩ := h
      obtain ⟨y, hy, hby⟩ := ih j hj
      exact ⟨y, by simpa [← hji] using hy, hby⟩

theorem checkNumericSeries_eq_none_iff (t : Rat) (c : String) (es as : List Rat)
    (h : es.length = as.length) :
    checkNumericSeries t c es as = none ↔ ∀ p ∈ es.zip as, |p.1 - p.2| ≤ t := by
  simp [checkNumericSeries, h, Option.map_eq_none', findBadIdx_eq_none_iff, not_lt]

theorem checkNumericSeries_eq_some (t : Rat) (c : String) (es as : List Rat)
    (f : XYFailure) (h : es.length = as.length)
    (hf : checkNumericSeries t c es as = some f) :
    ∃ i p, f = XYFailure.valueMismatch i c ∧ (es.zip as).get? i = some p ∧
      t < |p.1 - p.2| := by
  simp only [checkNumericSeries, h, ne_eq, not_true_eq_false, if_false,
    Option.map_eq_some'] at hf
  obtain ⟨i, hi, hfi⟩ := hf
  obtain ⟨p, hp, hbp⟩ := findBadIdx_eq_some_get _ _ _ hi
  exact ⟨i, p, hfi.symm, hp, by simpa using hbp⟩

theorem checkLabelSeries_eq_none_iff (c : String) (es : List CellValue)
    (as : List String) (h : es.length = as.length) :
    checkLabelSeries c es as = none ↔
      ∀ p ∈ (es.map cellLabel).zip as, p.1 = p.2 := by
  simp [checkLabelSeries, h, Option.map_eq_none', findBadIdx_eq_none_iff]

theorem checkLabelSeries_eq_some (c : String) (es : List CellValue)
    (as : List String) (f : XYFailure) (h : es.length = as.length)
    (hf : checkLabelSeries c es as = some f) :
    ∃ i p, f = XYFailure.valueMismatch i c ∧
      ((es.map cellLabel).zip as).get? i = some p ∧ p.1 ≠ p.2 := by
  simp only [checkLabelSeries, h, ne_eq, not_true_eq_false, if_false,
    Option.map_eq_some'] at hf
  obtain ⟨i, hi, hfi⟩ := hf
  obtain ⟨p, hp, hbp⟩ := findBadIdx_eq_some_get _ _ _ hi
  exact ⟨i, p, hfi.symm, hp, by simpa using hbp⟩

theorem checkXNumeric_map (t : Rat) (xs as : List Rat) :
    checkXNumeric t (xs.map CellValue.num) as = checkNumericSeries t "x" xs as := by
  unfold checkXNumeric checkNumericSeries
  rw [List.length_map, List.zip_map_left, findBadIdx_map]
  simp only [Prod.map_fst, Prod.map_snd, id_eq]

theorem assert_xydata_numeric_iff (xs : List Rat) (tbl : ExpectedTable) (ax : Axes)
    (t : Rat) (hx : tbl.xcol = xs.map CellValue.num)
    (hlx : xs.length = ax.xvals.length) (hly : tbl.ycol.length = ax.yvals.length) :
    assert_xydata (some tbl) ax t false = none ↔
      ((∀ p ∈ xs.zip ax.xvals, |p.1 - p.2| ≤ t) ∧
        (∀ p ∈ tbl.ycol.zip ax.yvals, |p.1 - p.2| ≤ t)) := by
  by_cases he : (tbl.xcol.isEmpty && tbl.ycol.isEmpty) = true
  · have hex : tbl.xcol = [] := List.isEmpty_iff.mp ((Bool.and_eq_true _ _).mp he).1
    have hey : tbl.ycol = [] := List.isEmpty_iff.mp ((Bool.and_eq_true _ _).mp he).2
    have hxs : xs = [] := by
      rw [hex] at hx
      exact List.map_eq_nil_iff.mp hx.symm
    simp [assert_xydata, hex, hey, hxs]
  · have hxc : checkXNumeric t tbl.xcol ax.xvals = checkNumericSeries t "x" xs ax.xvals := by
      rw [hx, checkXNumeric_map]
    cases hres : checkNumericSeries t "x" xs ax.xvals with
    | none =>
      have hxall := (checkNumericSeries_eq_none_iff t "x" xs ax.xvals hlx).mp hres
      simp only [assert_xydata, he, if_false, Bool.false_eq_true, hxc, hres]
      rw [checkNumericSeries_eq_none_iff t "y" tbl.ycol ax.yvals hly]
      exact (and_iff_right hxall).symm
    | some f =>
      have hxbad : ¬ ∀ p ∈ xs.zip ax.xvals, |p.1 - p.2| ≤ t := by
        intro hall
        rw [(checkNumericSeries_eq_none_iff t "x" xs ax.xvals hlx).mpr hall] at hres
        exact Option.noConfusion hres
      simp only [assert_xydata, he, if_false, Bool.false_eq_true, hxc, hres]
      exact iff_of_false (by simp) fun hab => hxbad hab.1

theorem assert_xydata_numeric_some (xs : List Rat) (tbl : ExpectedTable) (ax : Axes)
    (t : Rat) (hx : tbl.xcol = xs.map CellValue.num)
    (hlx : xs.length = ax.xvals.length) (hly : tbl.ycol.length = ax.yvals.length)
    (hbad : ¬ ((∀ p ∈ xs.zip ax.xvals, |p.1 - p.2| ≤ t) ∧
        (∀ p ∈ tbl.ycol.zip ax.yvals, |p.1 - p.2| ≤ t))) :
    ∃ i c p, assert_xydata (some tbl) ax t false = some (XYFailure.valueMismatch i c) ∧
      ((c = "x" ∧ (xs.zip ax.xvals).get? i = some p ∧ t < |p.1 - p.2|) ∨
        (c = "y" ∧ (tbl.ycol.zip ax.yvals).get? i = some p ∧ t < |p.1 - p.2|)) := by
  have hne : ¬ (tbl.xcol.isEmpty && tbl.ycol.isEmpty) = true := by
    intro he
    have hex : tbl.xcol = [] := List.isEmpty_iff.mp ((Bool.and_eq_true _ _).mp he).1
    have hey : tbl.ycol = [] := List.isEmpty_iff.mp ((Bool.and_eq_true _ _).mp he).2
    have hxs : xs = [] := by
      rw [hex] at hx
      exact List.map_eq_nil_iff.mp hx.symm
    exact hbad (by simp [hxs, hey])
  have hxc : checkXNumeric t tbl.xcol ax.xvals = checkNumericSeries t "x" xs ax.xvals := by
    rw [hx, checkXNumeric_map]
  cases hres : checkNumericSeries t "x" xs ax.xvals with
  | some f =>
    obtain ⟨i, p, hfi, hget, hbp⟩ := checkNumericSeries_eq_some t "x" xs ax.xvals f hlx hres
    refine ⟨i, "x", p, ?_, Or.inl ⟨rfl, hget, hbp⟩⟩
    simp only [assert_xydata, hne, if_false, Bool.false_eq_true, hxc, hres, hfi]
  | none =>
    have hxall := (checkNumericSeries_eq_none_iff t "x" xs ax.xvals hlx).mp hres
    have hybad : ¬ ∀ p ∈ tbl.ycol.zip ax.yvals, |p.1 - p.2| ≤ t := fun hy =>
      hbad ⟨hxall, hy⟩
    cases hyres : checkNumericSeries t "y" tbl.ycol ax.yvals with
    | none =>
      exact absurd ((checkNumericSeries_eq_none_iff t "y" tbl.ycol ax.yvals hly).mp hyres)
        hybad
    | some g =>
      obtain ⟨i, p, hgi, hget, hbp⟩ :=
        checkNumericSeries_eq_some t "y" tbl.ycol ax.yvals g hly hyres
      refine ⟨i, "y", p, ?_, Or.inr ⟨rfl, hget, hbp⟩⟩
      simp only [assert_xydata, hne, if_false, Bool.false_eq_true, hxc, hres, hyres, hgi]

theorem assert_xydata_xlabels_iff (tbl : ExpectedTable) (ax : Axes) (t : Rat)
    (hlx : tbl.xcol.length = ax.xticklabels.length)
    (hly : tbl.ycol.length = ax.yvals.length)
    (hy : ∀ p ∈ tbl.ycol.zip ax.yvals, |p.1 - p.2| ≤ t) :
    assert_xydata (some tbl) ax t true = none ↔
      ∀ p ∈ (tbl.xcol.map cellLabel).zip ax.xticklabels, p.1 = p.2 := by
  by_cases he : (tbl.xcol.isEmpty && tbl.ycol.isEmpty) = true
  · have hex : tbl.xcol = [] := List.isEmpty_iff.mp ((Bool.and_eq_true _ _).mp he).1
    have hey : tbl.ycol = [] := List.isEmpty_iff.mp ((Bool.and_eq_true _ _).mp he).2
    simp [assert_xydata, hex, hey]
  · cases hres : checkLabelSeries "x" tbl.xcol ax.xticklabels with
    | none =>
      have h1 := (checkLabelSeries_eq_none_iff "x" tbl.xcol ax.xticklabels hlx).mp hres
      simp only [assert_xydata, he, if_false, if_true, hres]
      exact iff_of_true ((checkNumericSeries_eq_none_iff t "y" tbl.ycol ax.yvals hly).mpr hy) h1
    | some f =>
      have h2 : ¬ ∀ p ∈ (tbl.xcol.map cellLabel).zip ax.xticklabels, p.1 = p.2 := by
        intro hall
        rw [(checkLabelSeries_eq_none_iff "x" tbl.xcol ax.xticklabels hlx).mpr hall] at hres
        exact Option.noConfusion hres
      simp only [assert_xydata, he, if_false, if_true, hres]
      exact iff_of_false (by simp) h2

theorem assert_xydata_xlabels_some (tbl : ExpectedTable) (ax : Axes) (t : Rat)
    (hlx : tbl.xcol.length = ax.xticklabels.length)
    (hbad : ¬ ∀ p ∈ (tbl.xcol.map cellLabel).zip ax.xticklabels, p.1 = p.2) :
    ∃ i p, assert_xydata (some tbl) ax t true = some (XYFailure.valueMismatch i "x") ∧
      ((tbl.xcol.map cellLabel).zip ax.xticklabels).get? i = some p ∧ p.1 ≠ p.2 := by
  have hne : ¬ (tbl.xcol.isEmpty && tbl.ycol.isEmpty) = true := by
    intro he
    have hex : tbl.xcol = [] := List.isEmpty_iff.mp ((Bool.and_eq_true _ _).mp he).1
    exact hbad (by simp [hex])
  cases hres : checkLabelSeries "x" tbl.xcol ax.xticklabels with
  | none =>
    exact absurd ((checkLabelSeries_eq_none_iff "x" tbl.xcol ax.xticklabels hlx).mp hres)
      hbad
  | some f =>
    obtain ⟨i, p, hfi, hget, hbp⟩ :=
      checkLabelSeries_eq_some "x" tbl.xcol ax.xticklabels f hlx hres
    refine ⟨i, p, ?_, hget, hbp⟩
    simp [assert_xydata, hne, hres, hfi]

theorem sortedByMarkersize_iff (attrs ms : List Rat) :
    sortedByMarkersize attrs ms = true ↔
      ∀ p ∈ attrs.zip ms, ∀ q ∈ attrs.zip ms, p.1 < q.1 → p.2 ≤ q.2 := by
  simp only [sortedByMarkersize, List.all_eq_true, decide_eq_true_eq]

theorem sortedByMarkersize_scale (attrs ms : List Rat) (c : Rat) (hc : 0 < c) :
    sortedByMarkersize attrs (ms.map fun s => c * s) =
      sortedByMarkersize attrs ms := by
  rw [Bool.eq_iff_iff, sortedByMarkersize_iff, sortedByMarkersize_iff]
  constructor
  · intro h p hp q hq hlt
    have hp2 : (p.1, c * p.2) ∈ attrs.zip (ms.map fun s => c * s) := by
      rw [List.zip_map_right]
      exact List.mem_map.mpr ⟨p, hp, rfl⟩
    have hq2 : (q.1, c * q.2) ∈ attrs.zip (ms.map fun s => c * s) := by
      rw [List.zip_map_right]
      exact List.mem_map.mpr ⟨q, hq, rfl⟩
    exact le_of_mul_le_mul_left (h _ hp2 _ hq2 hlt) hc
  · intro h p2 hp2 q2 hq2 hlt
    rw [List.zip_map_right] at hp2 hq2
    obtain ⟨p, hp, rfl⟩ := List.mem_map.mp hp2
    obtain ⟨q, hq, rfl⟩ := List.mem_map.mp hq2
    simp only [Prod.map_fst, Prod.map_snd, id_eq] at hlt ⊢
    exact mul_le_mul_of_nonneg_left (h p hp q hq hlt) hc.le

/-! ### Claim theorems -/

/-- Claim C1: for every expected table with numeric x/y columns and every
tolerance `t ≥ 0`, `assert_xydata` passes exactly when
`|actual_i - expected_i| ≤ t` holds at every element `i` of both the x and
the y series, and fails as soon as some element violates the bound. -/
theorem assert_xydata_tolerance_spec (xs : List Rat) (tbl : ExpectedTable)
    (ax : Axes) (t : Rat) (ht : 0 ≤ t)
    (hx : tbl.xcol = xs.map CellValue.num)
    (hlx : xs.length = ax.xvals.length)
    (hly : tbl.ycol.length = ax.yvals.length) :
    assert_xydata (some tbl) ax t false = none ↔
      ((∀ p ∈ xs.zip ax.xvals, |p.1 - p.2| ≤ t) ∧
        (∀ p ∈ tbl.ycol.zip ax.yvals, |p.1 - p.2| ≤ t)) :=
  assert_xydata_numeric_iff xs tbl ax t hx hlx hly

/-- Witness for C1 at a concrete scatter: expected x `[1, 2]`, y `[3, 4]`,
rendered x `[1, 2]`, y `[3, 4]`, tolerance `0`. -/
theorem assert_xydata_tolerance_spec_witness :
    assert_xydata (some { xcol := [CellValue.num 1, CellValue.num 2], ycol := [3, 4] })
        { xvals := [1, 2], yvals := [3, 4], xticklabels := [], markers := [],
          markersizes := [], lineBatches := [] } 0 false = none ↔
      ((∀ p ∈ ([1, 2] : List Rat).zip [1, 2], |p.1 - p.2| ≤ (0 : Rat)) ∧
        (∀ p ∈ ([3, 4] : List Rat).zip [3, 4], |p.1 - p.2| ≤ (0 : Rat))) :=
  assert_xydata_tolerance_spec [1, 2] _ _ 0 (le_refl 0) rfl rfl rfl

/-- Claim C2: `assert_points` compares the rendered marker coordinates to the
expected coordinates as an unordered collection — it passes exactly when
the rendered `(x, y)` pairs are a permutation of the expected ones
(regardless of draw order), so any altered, added, or removed coordinate
fails. -/
theorem assert_points_spec (expectedPoints : List (Rat × Rat)) (ax : Axes) :
    assert_points expectedPoints ax = true ↔ ax.markers.Perm expectedPoints := by
  simp [assert_points, Multiset.coe_eq_coe]

/-- Claim C3: matching in `assert_xydata` is strictly positional — even when the
rendered series are permutations of the expected ones (the multisets of
values agree), the assertion passes exactly when every expected row matches
the rendered element at the same position within tolerance, so an ordering
mismatch beyond tolerance fails. -/
theorem assert_xydata_positional_spec (xs : List Rat) (tbl : ExpectedTable)
    (ax : Axes) (t : Rat)
    (hx : tbl.xcol = xs.map CellValue.num)
    (hpx : ax.xvals.Perm xs) (hpy : ax.yvals.Perm tbl.ycol) :
    assert_xydata (some tbl) ax t false = none ↔
      ((∀ p ∈ xs.zip ax.xvals, |p.1 - p.2| ≤ t) ∧
        (∀ p ∈ tbl.ycol.zip ax.yvals, |p.1 - p.2| ≤ t)) :=
  assert_xydata_numeric_iff xs tbl ax t hx hpx.length_eq.symm hpy.length_eq.symm

/-- Witness for C3 at a concrete chart whose rendered series are reversals
of the expected ones: the multisets agree although the positions differ. -/
theorem assert_xydata_positional_spec_witness :
    assert_xydata (some { xcol := [CellValue.num 1, CellValue.num 2], ycol := [3, 4] })
        { xvals := [2, 1], yvals := [4, 3], xticklabels := [], markers := [],
          markersizes := [], lineBatches := [] } 0 false = none ↔
      ((∀ p ∈ ([1, 2] : List Rat).zip [2, 1], |p.1 - p.2| ≤ (0 : Rat)) ∧
        (∀ p ∈ ([3, 4] : List Rat).zip [4, 3], |p.1 - p.2| ≤ (0 : Rat))) :=
  assert_xydata_positional_spec [1, 2] _ _ 0 rfl (by decide) (by decide)

/-- Claim C6: `assert_xydata` with an absent (`None`) or empty expected table
always passes as a no-op, regardless of the chart content. -/
theorem assert_xydata_noop_spec (ax : Axes) (t : Rat) (xlabels : Bool) :
    assert_xydata none ax t xlabels = none ∧
      assert_xydata (some { xcol := [], ycol := [] }) ax t xlabels = none :=
  ⟨rfl, rfl⟩

/-- Claim C4: whenever `assert_xydata` meets a length mismatch, a numeric
value mismatch beyond tolerance, or a non-identical categorical/string
label under `xlabels=True`, it fails — never passing silently — with a
descriptive "Incorrect data values" condition naming the offending element:
for a value mismatch the offending row and column (the named row being one
where the series actually diverge), and for a length mismatch the expected
and found element counts, on the x series, the y series, and the label
path alike. -/
theorem assert_xydata_failure_spec (xs : List Rat) (tbl : ExpectedTable)
    (ax : Axes) (t : Rat) :
    (tbl.xcol = xs.map CellValue.num → xs.length = ax.xvals.length →
      tbl.ycol.length = ax.yvals.length →
      ¬ ((∀ p ∈ xs.zip ax.xvals, |p.1 - p.2| ≤ t) ∧
          (∀ p ∈ tbl.ycol.zip ax.yvals, |p.1 - p.2| ≤ t)) →
      ∃ i c p, assert_xydata (some tbl) ax t false =
          some (XYFailure.valueMismatch i c) ∧
        (XYFailure.valueMismatch i c).message =
          "Incorrect data values: mismatch at row " ++ toString i ++
            " in column " ++ c ∧
        ((c = "x" ∧ (xs.zip ax.xvals).get? i = some p ∧ t < |p.1 - p.2|) ∨
          (c = "y" ∧ (tbl.ycol.zip ax.yvals).get? i = some p ∧ t < |p.1 - p.2|))) ∧
    (tbl.xcol.length = ax.xticklabels.length →
      ¬ (∀ p ∈ (tbl.xcol.map cellLabel).zip ax.xticklabels, p.1 = p.2) →
      ∃ i p, assert_xydata (some tbl) ax t true =
          some (XYFailure.valueMismatch i "x") ∧
        (XYFailure.valueMismatch i "x").message =
          "Incorrect data values: mismatch at row " ++ toString i ++
            " in column " ++ "x" ∧
        ((tbl.xcol.map cellLabel).zip ax.xticklabels).get? i = some p ∧
          p.1 ≠ p.2) ∧
    (tbl.xcol = xs.map CellValue.num →
      (tbl.xcol.isEmpty && tbl.ycol.isEmpty) = false →
      xs.length ≠ ax.xvals.length →
      assert_xydata (some tbl) ax t false =
          some (XYFailure.lengthMismatch xs.length ax.xvals.length) ∧
        (XYFailure.lengthMismatch xs.length ax.xvals.length).message =
          "Incorrect data values: expected " ++ toString xs.length ++
            " elements, found " ++ toString ax.xvals.length) ∧
    (tbl.xcol = xs.map CellValue.num →
      (tbl.xcol.isEmpty && tbl.ycol.isEmpty) = false →
      xs.length = ax.xvals.length →
      (∀ p ∈ xs.zip ax.xvals, |p.1 - p.2| ≤ t) →
      tbl.ycol.length ≠ ax.yvals.length →
      assert_xydata (some tbl) ax t false =
          some (XYFailure.lengthMismatch tbl.ycol.length ax.yvals.length) ∧
        (XYFailure.lengthMismatch tbl.ycol.length ax.yvals.length).message =
          "Incorrect data values: expected " ++ toString tbl.ycol.length ++
            " elements, found " ++ toString ax.yvals.length) ∧
    ((tbl.xcol.isEmpty && tbl.ycol.isEmpty) = false →
      tbl.xcol.length ≠ ax.xticklabels.length →
      assert_xydata (some tbl) ax t true =
          some (XYFailure.lengthMismatch tbl.xcol.length ax.xticklabels.length) ∧
        (XYFailure.lengthMismatch tbl.xcol.length ax.xticklabels.length).message =
          "Incorrect data values: expected " ++ toString tbl.xcol.length ++
            " elements, found " ++ toString ax.xticklabels.length) := by
  refine ⟨?_, ?_, ?_, ?_, ?_⟩
  · intro hx hlx hly hbad
    obtain ⟨i, c, p, hsome, hloc⟩ :=
      assert_xydata_numeric_some xs tbl ax t hx hlx hly hbad
    exact ⟨i, c, p, hsome, rfl, hloc⟩
  · intro hlx hbad
    obtain ⟨i, p, hsome, hget, hne⟩ :=
      assert_xydata_xlabels_some tbl ax t hlx hbad
    exact ⟨i, p, hsome, rfl, hget, hne⟩
  · intro hx hne hlen
    refine ⟨?_, rfl⟩
    have hxc : checkXNumeric t tbl.xcol ax.xvals =
        some (XYFailure.lengthMismatch xs.length ax.xvals.length) := by
      rw [hx]
      unfold checkXNumeric
      rw [List.length_map]
      exact if_pos hlen
    simp only [assert_xydata, hne, Bool.false_eq_true, if_false, hxc]
  · intro hx hne hlx hxa hlen
    refine ⟨?_, rfl⟩
    have hxc : checkXNumeric t tbl.xcol ax.xvals = none := by
      rw [hx, checkXNumeric_map]
      exact (checkNumericSeries_eq_none_iff t "x" xs ax.xvals hlx).mpr hxa
    have hyc : checkNumericSeries t "y" tbl.ycol ax.yvals =
        some (XYFailure.lengthMismatch tbl.ycol.length ax.yvals.length) := by
      unfold checkNumericSeries
      exact if_pos hlen
    simp only [assert_xydata, hne, Bool.false_eq_true, if_false, hxc, hyc]
  · intro hne hlen
    refine ⟨?_, rfl⟩
    have hxc : checkLabelSeries "x" tbl.xcol ax.xticklabels =
        some (XYFailure.lengthMismatch tbl.xcol.length ax.xticklabels.length) := by
      unfold checkLabelSeries
      exact if_pos hlen
    simp only [assert_xydata, hne, Bool.false_eq_true, if_false, if_true, hxc]

/-- Witness for C4: a scatter whose single rendered x value `7` differs from
the expected `1` beyond tolerance `0`; a bar chart whose tick label `"foo"`
differs from the expected numeric label `7`; and an expected table of one
row against charts rendering no x value, no y value, or no tick label. -/
theorem assert_xydata_failure_spec_witness :
    (∃ i c p, assert_xydata (some { xcol := [CellValue.num 1], ycol := [3] })
        { xvals := [7], yvals := [3], xticklabels := [], markers := [],
          markersizes := [], lineBatches := [] } 0 false =
        some (XYFailure.valueMismatch i c) ∧
      (XYFailure.valueMismatch i c).message =
        "Incorrect data values: mismatch at row " ++ toString i ++
          " in column " ++ c ∧
      ((c = "x" ∧ (([1] : List Rat).zip [7]).get? i = some p ∧
          (0 : Rat) < |p.1 - p.2|) ∨
        (c = "y" ∧ (([3] : List Rat).zip [3]).get? i = some p ∧
          (0 : Rat) < |p.1 - p.2|))) ∧
    (∃ i p, assert_xydata (some { xcol := [CellValue.num 7], ycol := [] })
        { xvals := [], yvals := [], xticklabels := ["foo"], markers := [],
          markersizes := [], lineBatches := [] } 0 true =
        some (XYFailure.valueMismatch i "x") ∧
      (XYFailure.valueMismatch i "x").message =
        "Incorrect data values: mismatch at row " ++ toString i ++
          " in column " ++ "x" ∧
      (([CellValue.num 7].map cellLabel).zip ["foo"]).get? i = some p ∧
        p.1 ≠ p.2) ∧
    (assert_xydata (some { xcol := [CellValue.num 1], ycol := [] })
        { xvals := [], yvals := [], xticklabels := [], markers := [],
          markersizes := [], lineBatches := [] } 0 false =
        some (XYFailure.lengthMismatch 1 0) ∧
      (XYFailure.lengthMismatch 1 0).message =
        "Incorrect data values: expected " ++ toString (1 : Nat) ++
          " elements, found " ++ toString (0 : Nat)) ∧
    (assert_xydata (some { xcol := [CellValue.num 1], ycol := [3] })
        { xvals := [1], yvals := [], xticklabels := [], markers := [],
          markersizes := [], lineBatches := [] } 0 false =
        some (XYFailure.lengthMismatch 1 0) ∧
      (XYFailure.lengthMismatch 1 0).message =
        "Incorrect data values: expected " ++ toString (1 : Nat) ++
          " elements, found " ++ toString (0 : Nat)) ∧
    (assert_xydata (some { xcol := [CellValue.num 1], ycol := [] })
        { xvals := [], yvals := [], xticklabels := [], markers := [],
          markersizes := [], lineBatches := [] } 0 true =
        some (XYFailure.lengthMismatch 1 0) ∧
      (XYFailure.lengthMismatch 1 0).message =
        "Incorrect data values: expected " ++ toString (1 : Nat) ++
          " elements, found " ++ toString (0 : Nat)) := by
  refine ⟨?_, ?_, ?_, ?_, ?_⟩
  · refine (assert_xydata_failure_spec [1]
      { xcol := [CellValue.num 1], ycol := [3] } _ 0).1 rfl rfl rfl ?_
    intro h
    have h1 := h.1 (1, 7) (by simp)
    norm_num at h1
  · exact (assert_xydata_failure_spec []
      { xcol := [CellValue.num 7], ycol := [] } _ 0).2.1 rfl (by decide)
  · exact (assert_xydata_failure_spec [1]
      { xcol := [CellValue.num 1], ycol := [] } _ 0).2.2.1 rfl rfl (by decide)
  · refine (assert_xydata_failure_spec [1]
      { xcol := [CellValue.num 1], ycol := [3] } _ 0).2.2.2.1 rfl rfl rfl ?_
        (by decide)
    intro p hp
    simp at hp
    subst hp
    norm_num
  · exact (assert_xydata_failure_spec [1]
      { xcol := [CellValue.num 1], ycol := [] } _ 0).2.2.2.2 rfl (by decide)

/-- Claim C7: with `xlabels=True` and the y series within tolerance, the x
comparison is performed on the tick labels as strings instead of on numeric
x positions — both for text-valued and numeric-valued category axes: the
assertion passes exactly when every expected x value, rendered as a string,
equals the corresponding tick label, and fails when any label differs
(including a numeric expected label meeting a non-numeric actual label). -/
theorem assert_xydata_xlabels_spec (tbl : ExpectedTable) (ax : Axes) (t : Rat)
    (hlx : tbl.xcol.length = ax.xticklabels.length)
    (hly : tbl.ycol.length = ax.yvals.length)
    (hy : ∀ p ∈ tbl.ycol.zip ax.yvals, |p.1 - p.2| ≤ t) :
    assert_xydata (some tbl) ax t true = none ↔
      ∀ p ∈ (tbl.xcol.map cellLabel).zip ax.xticklabels, p.1 = p.2 :=
  assert_xydata_xlabels_iff tbl ax t hlx hly hy

/-- Witness for C7 at a numeric-valued category axis: expected numeric x
labels `1` and `7` against rendered tick labels `"1"` and `"foo"`. -/
theorem assert_xydata_xlabels_spec_witness :
    assert_xydata (some { xcol := [CellValue.num 1, CellValue.num 7], ycol := [] })
        { xvals := [], yvals := [], xticklabels := ["1", "foo"], markers := [],
          markersizes := [], lineBatches := [] } 0 true = none ↔
      ∀ p ∈ (([CellValue.num 1, CellValue.num 7].map cellLabel).zip ["1", "foo"]),
        p.1 = p.2 :=
  assert_xydata_xlabels_spec { xcol := [CellValue.num 1, CellValue.num 7], ycol := [] }
    _ 0 rfl rfl (by simp)

/-- Claim C5 counterexample: the tolerance override parameter is not named
`tolerance` — the shipped test suite calls `assert_xydata` with the keyword
`tolerence`, so `tolerance` is not an accepted keyword, and a value passed
under the name `tolerance` leaves the default tolerance in force. -/
theorem tolerance_keyword_counterexample :
    acceptsKeyword "tolerance" = false ∧ acceptsKeyword "tolerence" = true ∧
      effectiveTolerence [("tolerance", 1)] = defaultTolerence ∧
      defaultTolerence ≠ 1 := by
  refine ⟨by decide, by decide, rfl, ?_⟩
  norm_num [defaultTolerence]

/-- Claim C5 as amended: `assert_xydata` uses its small default tolerance when the
caller supplies none, and the caller overrides it via the parameter named
`tolerence` (the spelling the shipped tests use), not `tolerance`. -/
theorem tolerence_parameter_spec (t : Rat) :
    effectiveTolerence [("tolerence", t)] = t ∧
      effectiveTolerence [] = defaultTolerence ∧
      acceptsKeyword "tolerence" = true :=
  ⟨rfl, rfl, by decide⟩

/-- Claim C8: `assert_collection_sorted_by_markersize` passes exactly when the
rendered marker sizes are monotonically consistent with the expected size
attribute — a strictly larger attribute value always comes with a larger or
equal rendered size, so two inverted attribute groups fail — and exact
pixel sizes are never checked: rescaling every rendered size by a positive
factor leaves the result unchanged. -/
theorem assert_collection_sorted_by_markersize_spec (sizeAttrs : List Rat)
    (ax : Axes) :
    (assert_collection_sorted_by_markersize sizeAttrs ax = true ↔
      ∀ p ∈ sizeAttrs.zip ax.markersizes, ∀ q ∈ sizeAttrs.zip ax.markersizes,
        p.1 < q.1 → p.2 ≤ q.2) ∧
    (∀ c : Rat, 0 < c →
      assert_collection_sorted_by_markersize sizeAttrs
          { ax with markersizes := ax.markersizes.map fun s => c * s } =
        assert_collection_sorted_by_markersize sizeAttrs ax) :=
  ⟨sortedByMarkersize_iff sizeAttrs ax.markersizes,
    fun c hc => sortedByMarkersize_scale sizeAttrs ax.markersizes c hc⟩

/-- Witness for C8 at the vignette's size attributes `[100, 300, 500]` with
rendered sizes `[1, 2, 3]`, rescaled by the factor `2`. -/
theorem assert_collection_sorted_by_markersize_spec_witness :
    (assert_collection_sorted_by_markersize [100, 300, 500]
        { xvals := [], yvals := [], xticklabels := [], markers := [],
          markersizes := [1, 2, 3], lineBatches := [] } = true ↔
      ∀ p ∈ ([100, 300, 500] : List Rat).zip
          (Axes.markersizes ⟨[], [], [], [], [1, 2, 3], []⟩),
        ∀ q ∈ ([100, 300, 500] : List Rat).zip
            (Axes.markersizes ⟨[], [], [], [], [1, 2, 3], []⟩),
          p.1 < q.1 → p.2 ≤ q.2) ∧
    assert_collection_sorted_by_markersize [100, 300, 500]
        { xvals := [], yvals := [], xticklabels := [], markers := [],
          markersizes := ([1, 2, 3] : List Rat).map fun s => 2 * s,
          lineBatches := [] } =
      assert_collection_sorted_by_markersize [100, 300, 500]
        { xvals := [], yvals := [], xticklabels := [], markers := [],
          markersizes := [1, 2, 3], lineBatches := [] } := by
  exact ⟨(assert_collection_sorted_by_markersize_spec [100, 300, 500] _).1,
    (assert_collection_sorted_by_markersize_spec [100, 300, 500]
      ⟨[], [], [], [], [1, 2, 3], []⟩).2 2 (by decide)⟩

/-- Claim C9: `assert_lines_grouped_by_type` passes exactly when every attribute
group of the expected line geodata is rendered as a batch carrying the
color the symbology mapping assigns to it and exactly that group's
geometries; concretely, with the mapping road ↦ black, stream ↦ blue, a
correct rendering passes, while rendering the road group with the wrong
color, or merging both groups into one batch, fails. -/
theorem assert_lines_grouped_by_type_spec (expected : List (String × Line))
    (symb : List (String × String)) (ax : Axes) :
    (assert_lines_grouped_by_type expected symb ax = true ↔
      ∀ a ∈ attrValues expected, ∃ b ∈ ax.lineBatches,
        symb.lookup a = some b.1 ∧ b.2.Perm (groupLines expected a)) ∧
    assert_lines_grouped_by_type
        [("road", [(1, 1), (2, 2), (3, 2), (5, 3)]),
          ("road", [(3, 4), (5, 7), (12, 2), (10, 5), (9, 8)]),
          ("stream", [(2, 1), (3, 1), (4, 1), (5, 2)])]
        [("road", "black"), ("stream", "blue")]
        { xvals := [], yvals := [], xticklabels := [], markers := [],
          markersizes := [],
          lineBatches := [("black", [[(1, 1), (2, 2), (3, 2), (5, 3)],
              [(3, 4), (5, 7), (12, 2), (10, 5), (9, 8)]]),
            ("blue", [[(2, 1), (3, 1), (4, 1), (5, 2)]])] } = true ∧
    assert_lines_grouped_by_type
        [("road", [(1, 1), (2, 2), (3, 2), (5, 3)]),
          ("road", [(3, 4), (5, 7), (12, 2), (10, 5), (9, 8)]),
          ("stream", [(2, 1), (3, 1), (4, 1), (5, 2)])]
        [("road", "black"), ("stream", "blue")]
        { xvals := [], yvals := [], xticklabels := [], markers := [],
          markersizes := [],
          lineBatches := [("green", [[(1, 1), (2, 2), (3, 2), (5, 3)],
              [(3, 4), (5, 7), (12, 2), (10, 5), (9, 8)]]),
            ("blue", [[(2, 1), (3, 1), (4, 1), (5, 2)]])] } = false ∧
    assert_lines_grouped_by_type
        [("road", [(1, 1), (2, 2), (3, 2), (5, 3)]),
          ("road", [(3, 4), (5, 7), (12, 2), (10, 5), (9, 8)]),
          ("stream", [(2, 1), (3, 1), (4, 1), (5, 2)])]
        [("road", "black"), ("stream", "blue")]
        { xvals := [], yvals := [], xticklabels := [], markers := [],
          markersizes := [],
          lineBatches := [("black", [[(1, 1), (2, 2), (3, 2), (5, 3)],
              [(3, 4), (5, 7), (12, 2), (10, 5), (9, 8)],
              [(2, 1), (3, 1), (4, 1), (5, 2)]])] } = false := by
  refine ⟨?_, by decide, by decide, by decide⟩
  simp [assert_lines_grouped_by_type, List.all_eq_true, List.any_eq_true,
    Multiset.coe_eq_coe]

/-- Claim C10: a `VectorTester` constructed from the handle that
`convert_axes(plt, which_axes="current")` returns for the rendered chart
gives every assertion the same pass/fail result as a `VectorTester`
constructed directly from the chart's Axes object. -/
theorem convert_axes_equiv (plt : PyplotState) (check : VectorTester → Bool) :
    (convert_axes plt "current").map (fun a => check (VectorTester.mk a)) =
      some (check (VectorTester.mk plt.current)) := by
  simp [convert_axes]

end Matplotcheck
